import Mathlib

/-!
Verification of the Jirugular retrieval→enrichment→synthesis pipeline.

Shallow embedding of the core of `src/jira_rag/` (chat.py, hybrid_retriever.py,
vector_store.py, chat_multisource.py).  Python strings are modelled as Lean
`String`; Python `None`/missing dict entries as `Option`; Python float scores
and temperatures as exact rationals `ℚ`; fallible upstream calls as
`Except String`.  Python truthiness for the string values that the code
chains with `or` (only `None` and `""` are falsy) is modelled explicitly.
-/

namespace Jirugular

/-- Python `str.lower()` restricted to the ASCII case mapping (all tokens the
code compares against are ASCII). -/
def pyLower (s : String) : String := ⟨s.data.map Char.toLower⟩

/-- Default whitespace set of Python `str.strip()`. -/
def isPySpace (c : Char) : Bool :=
  c = ' ' || c = '\t' || c = '\n' || c = '\r' || c = '\x0b' || c = '\x0c'

/-- Python `str.strip()` with no argument: drop leading and trailing whitespace. -/
def pyStrip (s : String) : String :=
  ⟨((s.data.dropWhile isPySpace).reverse.dropWhile isPySpace).reverse⟩

/-- Python truthiness of an optional string: `None` and `""` are falsy. -/
def pyTruthy : Option String → Bool
  | none => false
  | some s => s ≠ ""

/-- Value of a Python chain `a or b or ... or z` followed by
`str(x) if x else None`: the first truthy (non-empty) entry, else `none`. -/
def firstTruthy : List (Option String) → Option String
  | [] => none
  | a :: rest => if pyTruthy a then a else firstTruthy rest

/-- Python `str(x)` on an optional string (`None` renders as `"None"`). -/
def pyStr : Option String → String
  | none => "None"
  | some s => s

/-! ## chat.py — persona normalization (`ChatService._normalize_persona`) -/

/-- The tokens treated as "no persona" (chat.py line 50). -/
def nullPersonaTokens : List String := ["", "none", "default", "off", "no"]

/-- Embeds `ChatService._normalize_persona` (chat.py lines 45–52): `None` stays
`None`; otherwise strip + lowercase, and the null tokens map to `None`. -/
def normalizePersona : Option String → Option String
  | none => none
  | some c =>
    let s := pyLower (pyStrip c)
    if s ∈ nullPersonaTokens then none else some s

/-! ## chat.py — effective intensity (`answer` lines 94–99) -/

/-- Effective persona intensity as computed in `ChatService.answer`
(lines 94–99): `(intensity or "medium").strip().lower()`, defaulted to
`"medium"` when outside the three levels, then escalated to `"heavy"` for
the Yoda persona in multi-format when it is `"medium"`.  `character` is the
already-normalized persona. -/
def effectiveIntensity (character : Option String) (multiFormat : Bool)
    (intensity : Option String) : String :=
  let raw := match intensity with
    | none => "medium"
    | some s => if s = "" then "medium" else s
  let lvl := pyLower (pyStrip raw)
  let lvl := if lvl = "light" || lvl = "medium" || lvl = "heavy" then lvl else "medium"
  if character = some "yoda" && multiFormat && lvl = "medium" then "heavy" else lvl

/-- Per-paragraph persona quota (`_persona_instructions` lines 399–402): the
dict `{"light": 1, "medium": 2, "heavy": 3}` indexed by the (already
re-normalized) level; the function is only applied to one of the three
levels, where the dict lookup is total. -/
def quotaOf (lvl : String) : Nat :=
  if lvl = "light" then 1 else if lvl = "medium" then 2 else 3

/-! ## chat.py — effective temperature (`answer` lines 196–200) -/

/-- Effective temperature passed to the completion call (chat.py
lines 196–200): default 0.5 when unset, and `min(base_temp, 0.35)` when a
(normalized) persona is active.  The code comment mentions 0.2 but no lower
bound is applied. -/
def effectiveTemperature (temperature : Option ℚ) (character : Option String) : ℚ :=
  let base : ℚ := match temperature with
    | none => 0.5
    | some t => t
  match character with
  | some _ => min base 0.35
  | none => base

/-! ## Hit records

A retrieval hit is a Python dict; we model the fields the core reads.
Absent keys and `None` values coincide as `none`. -/

/-- A retrieval hit (metadata dict + optional live overlay fields). -/
structure Hit where
  key : Option String := none
  issue_key : Option String := none
  status : Option String := none
  assignee : Option String := none
  reporter : Option String := none
  priority : Option String := none
  resolution : Option String := none
  created : Option String := none
  updated : Option String := none
  summary : Option String := none
  document : Option String := none
  userPrincipalName : Option String := none
  mail : Option String := none
  displayName : Option String := none
  id : Option String := none
  createdDateTime : Option String := none
  appDisplayName : Option String := none
  live_status : Option String := none
  live_assignee : Option String := none
  live_priority : Option String := none
  live_updated : Option String := none
deriving DecidableEq

/-! ## chat.py — dedup (`answer` lines 110–135) -/

/-- The sign-ins composite key
`f"{h.get('userPrincipalName')}|{h.get('createdDateTime')}|{h.get('appDisplayName')}"`
(chat.py line 125); `None` fields render as `"None"`, so the composite is
never empty. -/
def signinsComposite (h : Hit) : String :=
  pyStr h.userPrincipalName ++ "|" ++ pyStr h.createdDateTime ++ "|" ++ pyStr h.appDisplayName

/-- Computes `kstr` of the dedup loop (chat.py lines 114–130): the kind-specific
`dedupe_key` chain of `or`s followed by `str(dedupe_key) if dedupe_key else
None`, i.e. the first truthy candidate, else `none`. -/
def dedupeKey (ds : String) (h : Hit) : Option String :=
  if ds = "people" then
    firstTruthy [h.userPrincipalName, h.mail, h.displayName, h.id, h.document]
  else if ds = "signins" then
    firstTruthy [h.id, some (signinsComposite h), h.document]
  else
    firstTruthy [h.key, h.issue_key]

/-- The dedup loop of `ChatService.answer` (chat.py lines 111–135), with the
`seen` set threaded explicitly: a keyless hit is always appended; a keyed hit
is appended iff its key is not in `seen`, which then records the key. -/
def dedupAux (ds : String) : List Hit → List String → List Hit
  | [], _ => []
  | h :: t, seen =>
    match dedupeKey ds h with
    | none => h :: dedupAux ds t seen
    | some k => if k ∈ seen then dedupAux ds t seen else h :: dedupAux ds t (k :: seen)

/-- Runs the dedup loop (`hits = unique_hits`), starting from an empty set. -/
def dedup (ds : String) (hits : List Hit) : List Hit := dedupAux ds hits []

/-! ## hybrid_retriever.py — live enrichment (C3, C9) -/

/-- A Jira status/priority object as returned by the search API
(`fields.get("status")`, `fields.get("priority")`): only `name` is read. -/
structure NamedObj where
  name : Option String := none
deriving DecidableEq

/-- A Jira assignee object: only `displayName` is read. -/
structure UserObj where
  displayName : Option String := none
deriving DecidableEq

/-- The `fields` sub-dict of an issue returned by `jira.search`. -/
structure IssueFields where
  status : Option NamedObj := none
  assignee : Option UserObj := none
  priority : Option NamedObj := none
  updated : Option String := none
deriving DecidableEq

/-- An issue dict returned by `jira.search`. -/
structure JiraIssue where
  key : Option String := none
  fields : IssueFields := {}
deriving DecidableEq

/-- The `live_*` overlay built per issue (`_fetch_live_fields` lines 153–158). -/
structure Overlay where
  live_status : Option String := none
  live_assignee : Option String := none
  live_priority : Option String := none
  live_updated : Option String := none
deriving DecidableEq

/-- Type of `live_data`, a Python dict; modelled as a function from (possibly
`None`) keys to optional overlays. -/
def LiveMap : Type := Option String → Option Overlay

/-- The empty dict `{}`. -/
def emptyLiveMap : LiveMap := fun _ => none

/-- Python dict assignment `live_data[key] = v` (later writes win). -/
def insertLive (m : LiveMap) (k : Option String) (v : Overlay) : LiveMap :=
  fun k' => if k' = k then some v else m k'

/-- The overlay extracted from one issue (`_fetch_live_fields` lines 147–158):
`fields.get("status") or {}` then `.get("name")`, etc.  The falsy cases
(`None` or `{}`) both yield `none` for the inner field. -/
def overlayOfIssue (iss : JiraIssue) : Overlay :=
  { live_status := iss.fields.status.bind NamedObj.name
    live_assignee := iss.fields.assignee.bind UserObj.displayName
    live_priority := iss.fields.priority.bind NamedObj.name
    live_updated := iss.fields.updated }

/-- Models the `range(0, len(key_list), batch_size)` slicing with `batch_size = 50`
(`_fetch_live_fields` lines 128–131), written with a fuel argument equal to
the list length so that it is structurally recursive. -/
def chunksGo : Nat → List String → List (List String)
  | _, [] => []
  | 0, _ => []
  | fuel + 1, l => l.take 50 :: chunksGo fuel (l.drop 50)

/-- Partition `key_list` into batches of ≤ 50. -/
def chunks (l : List String) : List (List String) := chunksGo l.length l

/-- The JQL string `"key in ({})".format(", ".join(batch))`. -/
def buildJql (batch : List String) : String :=
  "key in (" ++ String.intercalate ", " batch ++ ")"

/-- Embeds `HybridRetriever._fetch_live_fields` (lines 116–161).  `search` is the
upstream `jira.search` call, which may fail (`Except.error` models a raised
exception); the inner `try/except` replaces a failed batch by `results = []`.
The surrounding `try/except` returning `{}` is made redundant by totality:
nothing else in the body can raise.  The `self.jira is None` guard is dropped
because the caller (`retrieve`) only enriches when a Jira client exists. -/
def fetchLiveFields (search : String → Except String (List JiraIssue))
    (keys : List String) : LiveMap :=
  let key_list := keys.filter (fun k => k ≠ "")
  if key_list.isEmpty then emptyLiveMap
  else
    (chunks key_list).foldl
      (fun acc batch =>
        let results := match search (buildJql batch) with
          | .ok rs => rs
          | .error _ => []
        results.foldl (fun m iss => insertLive m iss.key (overlayOfIssue iss)) acc)
      emptyLiveMap

/-- Computes `key = meta.get("key") or meta.get("issue_key")` followed by the
truthiness guard (`retrieve` lines 88–89). -/
def hitKey (h : Hit) : Option String := firstTruthy [h.key, h.issue_key]

/-- The per-hit merge of `HybridRetriever.retrieve` (lines 86–92):
`meta = dict(h); live = live_map.get(key) if key else None;
if live: meta.update(live)`.  `live`, when present, is a dict with exactly
the four `live_*` keys, so `update` writes exactly those fields. -/
def mergeOne (liveMap : LiveMap) (h : Hit) : Hit :=
  match hitKey h with
  | some k =>
    match liveMap (some k) with
    | some live =>
      { h with live_status := live.live_status
               live_assignee := live.live_assignee
               live_priority := live.live_priority
               live_updated := live.live_updated }
    | none => h
  | none => h

/-- Embeds `HybridRetriever.retrieve` (lines 63–96) on the enrichment path.
`queryKeys` stands for `self._extract_keys(query)` (the set of regex matches
in the question; Python set iteration order is arbitrary, so it is taken as
an arbitrary list); hit keys are added as in lines 76–79. -/
def hybridRetrieveJira (search : String → Except String (List JiraIssue))
    (queryKeys : List String) (baseHits : List Hit) : List Hit :=
  let keys := queryKeys ++ baseHits.filterMap hitKey
  let liveMap := fetchLiveFields search keys
  baseHits.map (mergeOne liveMap)

/-! ## vector_store.py / chat_multisource.py (C1) -/

/-- A metadata dict stored in `FaissIndexer._meta`: an optional `source`
entry (read by the multi-source merge) plus an opaque remainder. -/
structure MSMeta where
  source : Option String := none
  payload : String := ""
deriving DecidableEq

/-- State of a `FaissIndexer`: the fields `MultiSourceRetriever` touches — the stored
metadata list (`self._meta`, exposed as `.metadata`).  The vector contents
live in the external FAISS index. -/
structure FaissIndexer where
  meta : List MSMeta := []
deriving DecidableEq

/-- One entry of the list returned by `FaissIndexer.search`: a copy of a
metadata dict with `"score"` set to the distance (vector_store.py
lines 83–85). -/
structure SearchHit where
  meta : MSMeta
  score : ℚ
deriving DecidableEq

/-- Embeds `FaissIndexer.search` (vector_store.py lines 71–86).  The underlying
`self._index.search` is the external ANN routine; its output row — the
zipped `(dist, idx)` pairs — is a parameter.  Entries with `idx == -1` are
skipped; the rest index `self._meta` (FAISS only returns ids of stored
vectors, and `load()` enforces `ntotal == len(self._meta)`, so `get?` always
succeeds on well-formed indexes). -/
def faissSearch (fi : FaissIndexer) (raw : List (ℚ × Int)) : List SearchHit :=
  raw.filterMap fun di =>
    if di.2 = -1 then none
    else (fi.meta.get? di.2.toNat).map fun m => { meta := m, score := di.1 }

/-- Models `D, I = idx.search(q, k)` (chat_multisource.py line 24): iterable
unpacking of the list returned by `FaissIndexer.search` into two names.  It
succeeds only when the list has exactly two elements — and then binds two
metadata dicts, not distance/id arrays. -/
def unpackDI : List SearchHit → Except String (SearchHit × SearchHit)
  | [a, b] => .ok (a, b)
  | _ => .error "ValueError: cannot unpack search() result into D, I"

/-- The start of the per-index loop body of `MultiSourceRetriever.retrieve`
(chat_multisource.py lines 24–25) with `idx` a `FaissIndexer`, as both its
constructor annotation and `ChatServiceMulti` prescribe: `D, I =
idx.search(q, k)` followed by `D.tolist()`.  When the unpacking succeeds,
`D` is a metadata dict, which has no `tolist` attribute, so the attribute
lookup raises. -/
def msRetrieveStep (fi : FaissIndexer) (raw : List (ℚ × Int)) : Except String (List ℚ) :=
  match unpackDI (faissSearch fi raw) with
  | .error e => .error e
  | .ok _ => .error "AttributeError: dict object has no attribute tolist"

/-- A five-vector index (metadata for five stored vectors). -/
def demoFaiss : FaissIndexer :=
  { meta := [⟨none, "m0"⟩, ⟨none, "m1"⟩, ⟨none, "m2"⟩, ⟨none, "m3"⟩, ⟨none, "m4"⟩] }

/-- An ANN result row for `k = 5` against `demoFaiss`: five neighbors. -/
def demoRaw : List (ℚ × Int) := [(1, 0), (2, 1), (3, 2), (4, 3), (5, 4)]

/-! ## chat.py — completion call with model fallback (`answer` lines 202–222, C5) -/

/-- Failures of `client.chat.completions.create`:
`openai.PermissionDeniedError` versus every other exception class. -/
inductive OpenAIErr where
  | permissionDenied (msg : String)
  | apiError (msg : String)
deriving DecidableEq

/-- The arguments `answer` passes to the completion call. -/
structure GenRequest where
  model : String := ""
  messagesDigest : String := ""
  temperature : ℚ := 0.5
  max_tokens : Nat := 4096
deriving DecidableEq

/-- Python substring test `needle in hay`. -/
def pyInStr (needle hay : String) : Bool := decide (List.IsInfix needle.data hay.data)

/-- The `try/except` around the completion call (chat.py lines 202–222):
on `PermissionDeniedError` whose text mentions `"model"`, retry once with
`model="gpt-4-turbo"` and `max_tokens=min(max_tokens, 2048)` and return that
second call's outcome as-is; any other failure re-raises.  The second
component is a ghost trace of the requests issued, used to state "exactly
one retry". -/
def createWithFallback (create : GenRequest → Except OpenAIErr String)
    (req : GenRequest) : Except OpenAIErr String × List GenRequest :=
  match create req with
  | .ok r => (.ok r, [req])
  | .error (.permissionDenied msg) =>
    if pyInStr "model" msg then
      let fb : GenRequest := { req with model := "gpt-4-turbo", max_tokens := min req.max_tokens 2048 }
      (create fb, [req, fb])
    else (.error (.permissionDenied msg), [req])
  | .error (.apiError msg) => (.error (.apiError msg), [req])

/-! ## chat.py — language directive (`_language_directive`, lines 472–504) -/

/-- Alias table of `_language_directive` (chat.py lines 481–492). -/
def languageAliases : List (String × String) :=
  [("english", "en"), ("francais", "fr"), ("français", "fr"),
   ("francais (quebec)", "fr-CA"), ("français (québec)", "fr-CA"),
   ("quebec french", "fr-CA"), ("qc", "fr-CA"), ("pt-br", "pt-BR"),
   ("zh", "zh-CN"), ("cn", "zh-CN")]

/-- Embeds `ChatService._language_directive` (chat.py lines 472–504):
`None` when no language is set (`if not language`); otherwise the LANGUAGE
POLICY block for the aliased (or passed-through) locale code. -/
def languageDirective (language : Option String) : Option String :=
  if !pyTruthy language then none
  else
    let lang := pyStrip (pyStr language)
    let code := (languageAliases.lookup (pyLower lang)).getD lang
    some ("LANGUAGE POLICY:\n"
      ++ "- Write ALL explanatory text, section headings, and conclusions in \x27" ++ code ++ "\x27.\n"
      ++ "- DO NOT translate, rewrite, or normalize any literal values coming from the Context block: "
      ++ "names, job titles, departments, group names, issue keys, statuses, labels, UPNs/emails, IDs, dates. "
      ++ "Quote them verbatim as data.\n"
      ++ "- If a value appears in another language/script in Context, leave it as-is. "
      ++ "Only the surrounding narration/headings should be localized.\n"
      ++ "- When listing fields, keep their values exactly as given; only the connective prose is localized.")

/-! ## chat.py — localized headings and format lock (lines 509–572) -/

/-- Four section headings, as unpacked by `h1, h2, h3, h4 = ...`. -/
def Headings : Type := String × String × String × String

/-- Heading map of `_localized_headings_jira` (lines 511–522). -/
def headingsJiraMap : List (String × Headings) :=
  [("en", ("Detailed Summary", "Technical Summary", "Management Summary", "Overall Project Summary")),
   ("fr", ("Résumé détaillé", "Résumé technique", "Résumé pour la direction", "Résumé global du projet")),
   ("fr-ca", ("Résumé détaillé", "Résumé technique", "Résumé pour la direction", "Résumé global du projet")),
   ("es", ("Resumen detallado", "Resumen técnico", "Resumen para la dirección", "Resumen general del proyecto")),
   ("de", ("Detaillierte Zusammenfassung", "Technische Zusammenfassung", "Management-Zusammenfassung", "Gesamtzusammenfassung des Projekts")),
   ("it", ("Riepilogo dettagliato", "Riepilogo tecnico", "Riepilogo per la direzione", "Riepilogo complessivo del progetto")),
   ("pt-br", ("Resumo detalhado", "Resumo técnico", "Resumo para a diretoria", "Resumo geral do projeto")),
   ("ja", ("詳細サマリー", "技術サマリー", "マネジメントサマリー", "プロジェクト全体のサマリー")),
   ("ko", ("상세 요약", "기술 요약", "경영 요약", "프로젝트 전반 요약")),
   ("zh-cn", ("详细摘要", "技术摘要", "管理摘要", "项目总体摘要"))]

/-- Heading map of `_localized_headings_people` (lines 531–536). -/
def headingsPeopleMap : List (String × Headings) :=
  [("en", ("People Overview", "Managers & Leads (Inferred)", "Org Signals", "Actions & Follow-ups")),
   ("fr", ("Aperçu des personnes", "Gestionnaires et responsables (inférés)", "Signaux d’organisation", "Actions et suivis")),
   ("fr-ca", ("Aperçu des personnes", "Gestionnaires et responsables (inférés)", "Signaux d’organisation", "Actions et suivis")),
   ("es", ("Resumen de personas", "Gerentes y líderes (inferidos)", "Señales de organización", "Acciones y seguimientos"))]

/-- Heading map of `_localized_headings_signins` (lines 545–550). -/
def headingsSigninsMap : List (String × Headings) :=
  [("en", ("Auth Activity Overview", "Failures & Risk Signals", "Geo & Device Patterns", "Actions & Queries")),
   ("fr", ("Aperçu de l’activité d’authentification", "Échecs et signaux de risque", "Schémas géo et appareils", "Actions et requêtes")),
   ("fr-ca", ("Aperçu de l’activité d’authentification", "Échecs et signaux de risque", "Schémas géo et appareils", "Actions et requêtes")),
   ("es", ("Resumen de actividad de autenticación", "Fallos y señales de riesgo", "Patrones geográficos y de dispositivos", "Acciones y consultas"))]

/-- Shared lookup logic of the three `_localized_headings_*` functions:
`code = (language or "en").lower()`, fall back to the base locale when a
regional variant is unknown, and default to the `"en"` entry. -/
def localizedHeadings (m : List (String × Headings)) (fallbackEn : Headings)
    (language : Option String) : Headings :=
  let code := pyLower (match language with
    | none => "en"
    | some s => if s = "" then "en" else s)
  let code :=
    if (m.lookup code).isNone && pyInStr "-" code then
      let base := (code.splitOn "-").headD ""
      if (m.lookup base).isSome then base else code
    else code
  (m.lookup code).getD fallbackEn

/-- Embeds `_localized_headings_jira` (lines 509–527). -/
def localizedHeadingsJira (language : Option String) : Headings :=
  localizedHeadings headingsJiraMap
    ("Detailed Summary", "Technical Summary", "Management Summary", "Overall Project Summary") language

/-- Embeds `_localized_headings_people` (lines 529–541). -/
def localizedHeadingsPeople (language : Option String) : Headings :=
  localizedHeadings headingsPeopleMap
    ("People Overview", "Managers & Leads (Inferred)", "Org Signals", "Actions & Follow-ups") language

/-- Embeds `_localized_headings_signins` (lines 543–555). -/
def localizedHeadingsSignins (language : Option String) : Headings :=
  localizedHeadings headingsSigninsMap
    ("Auth Activity Overview", "Failures & Risk Signals", "Geo & Device Patterns", "Actions & Queries") language

/-- Embeds `ChatService._format_lock_text` (chat.py lines 557–572). -/
def formatLockText (language : Option String) (datasource : String) : String :=
  let ds := pyLower (if datasource = "" then "jira" else datasource)
  let h := if ds = "people" then localizedHeadingsPeople language
           else if ds = "signins" then localizedHeadingsSignins language
           else localizedHeadingsJira language
  "FORMAT LOCK: Produce exactly four sections with these exact headings, in this order:\n"
    ++ "1. " ++ h.1 ++ "\n"
    ++ "2. " ++ h.2.1 ++ "\n"
    ++ "3. " ++ h.2.2.1 ++ "\n"
    ++ "4. " ++ h.2.2.2 ++ "\n"
    ++ "Do not rename the headings. If a section has no content, write \x27No relevant items.\x27"

/-! ## chat.py — persona instruction block (`_persona_instructions`, lines 390–450) -/

/-- Global style rules (lines 405–410). -/
def globalStyleRules : String :=
  "Style rules:\n"
    ++ "- Keep average sentence length under ~18 words (concise).\n"
    ++ "- Prefer simple clauses over compound, to maintain tone.\n"
    ++ "- Avoid generic corporate phrasing.\n"

/-- Truthfulness guardrails (lines 435–440). -/
def baseGuardrails : String :=
  "Truthfulness & data rules:\n"
    ++ "- Stay strictly grounded in provided context.\n"
    ++ "- Do not invent fields or values; preserve identifiers, numbers, statuses, and dates exactly.\n"
    ++ "- If persona conflicts with clarity, prefer clarity but still meet the quota.\n"

/-- Self-check enforcement block (lines 441–444). -/
def enforcementRules : String :=
  "Self-check:\n"
    ++ "- For EACH paragraph, verify the quota is met; if not, rewrite that paragraph before finalizing.\n"

/-- Embeds `ChatService._persona_instructions` (chat.py lines 390–450):
empty for a falsy persona; otherwise the persona voice block (the four named
personas, or the generic fallback quoting the raw persona name) followed by
style rules, guardrails and the self-check.  All four per-persona quota
dicts in the source are the same `{"light": 1, "medium": 2, "heavy": 3}`,
embedded as `quotaOf`. -/
def personaInstructions (character : Option String) (intensity : Option String) : String :=
  if !pyTruthy character then ""
  else
    let c := pyLower (pyStrip (pyStr character))
    let lvlRaw := match intensity with
      | none => "medium"
      | some s => if s = "" then "medium" else s
    let lvl := pyLower (pyStrip lvlRaw)
    let lvl := if lvl = "light" || lvl = "medium" || lvl = "heavy" then lvl else "medium"
    let q := quotaOf lvl
    let persona :=
      if c = "pirate" then
        "Persona: Classic sea pirate.\n"
          ++ "- Quota: include ≥" ++ toString q ++ " pirate-flavored phrases per paragraph (nautical slang, \x27Arrr\x27).\n"
          ++ "- Maintain clarity; never obscure identifiers.\n"
      else if c = "yoda" then
        "Persona: Yoda.\n"
          ++ "- Use inverted syntax frequently (object before subject/verb) and brief interjections (\x27Hmm.\x27, \x27Hrrrm.\x27, \x27Yes.\x27).\n"
          ++ "- Quota: include ≥" ++ toString q ++ " Yoda-style **inverted** sentences per paragraph.\n"
          ++ "- Example templates: \x27Open the issue remains.\x27  \x27At risk, this project is.\x27  \x27Blocked by X, the team is.\x27\n"
      else if c = "shakespeare" then
        "Persona: Elizabethan/Shakespearean.\n"
          ++ "- Quota: include ≥" ++ toString q ++ " light Elizabethan flourishes per paragraph.\n"
      else if c = "executive-snark" then
        "Persona: Executive with dry wit.\n"
          ++ "- Quota: include ≥" ++ toString q ++ " wry, incisive lines per paragraph.\n"
          ++ "- Keep it professional; never disrespectful.\n"
      else
        "Persona: " ++ pyStr character ++ ". Maintain a consistent, recognizable voice in every paragraph. "
          ++ "Quota: include ≥" ++ toString q ++ " persona-typical sentences per paragraph.\n"
    persona ++ "\n" ++ globalStyleRules ++ baseGuardrails ++ enforcementRules

/-! ## chat.py — base system prompt (`_make_system_prompt`, lines 296–385) -/

/-- Embeds `ChatService._make_system_prompt` (chat.py lines 296–385).  The
`language` parameter of the source function is accepted but never read, so
it is omitted here.  Exactly one base-instruction string is returned:
people/sign-ins framing (multi-format or not), else one of the three Jira
role framings, else the Jira multi-format or default verbose-analyst
framing. -/
def makeSystemPrompt (multiFormat : Bool) (role : Option String)
    (datasource : String) : String :=
  let ds := pyLower (if datasource = "" then "jira" else datasource)
  if ds = "people" then
    if multiFormat then
      "You are an HR/People analytics assistant summarizing Microsoft 365 directory data (Microsoft Graph /users). "
        ++ "Use only the fields provided in context (displayName, userPrincipalName, mail, jobTitle, department, accountEnabled, plus a short document string). "
        ++ "Answer plainly about people, roles, and organizational hints. Avoid Jira terminology.\n\n"
        ++ "Output must include **four sections**:\n"
        ++ "1. **People Overview** – Who is in scope (counts, notable departments/titles, unknowns).\n"
        ++ "2. **Managers & Leads (Inferred)** – Based on job titles only (e.g., titles containing \x27Manager\x27, \x27Lead\x27, \x27Director\x27). Call out uncertainty.\n"
        ++ "3. **Org Signals** – Any department or naming patterns that indicate teams or functions.\n"
        ++ "4. **Actions & Follow-ups** – Data gaps (missing titles/emails), suggested clarifications.\n"
    else
      "You are an HR/People analytics assistant summarizing Microsoft Graph /users records. "
        ++ "Use displayName, userPrincipalName/mail, jobTitle, department, accountEnabled, and the provided notes. "
        ++ "Answer about people and teams; do not mention Jira."
  else if ds = "signins" then
    if multiFormat then
      "You are a security ops analyst summarizing Microsoft Graph Audit Logs sign-in events (/auditLogs/signIns). "
        ++ "Use only the fields in context (createdDateTime, appDisplayName, userDisplayName, userPrincipalName, ipAddress, clientAppUsed, operatingSystem, browser, city, countryOrRegion, result) plus the provided document text. "
        ++ "Identify failure patterns, risky geographies/devices, and actionable follow-ups.\n\n"
        ++ "Output must include **four sections**:\n"
        ++ "1. **Auth Activity Overview** – Volume, time window implied by the context, notable apps/users.\n"
        ++ "2. **Failures & Risk Signals** – Error trends, repeated failures, impossible travel hints, suspicious IP/device patterns.\n"
        ++ "3. **Geo & Device Patterns** – Cities/countries, OS/browser clusters, client app usage anomalies.\n"
        ++ "4. **Actions & Queries** – Concrete next steps (KQL/MS Graph filters, MFA checks, conditional access review).\n"
    else
      "You are a security ops analyst summarizing Microsoft Graph Audit Logs sign-in events. "
        ++ "Focus on failures, anomalies, and practical next steps. Keep findings concise and actionable."
  else if role = some "developer" then
    "You are a senior Jira-savvy developer. Summarize issues with technical clarity, focusing on code impact, blockers, dependencies, and implementation progress. "
      ++ "Include statuses, priorities, fix versions, and technical labels. Use [KEY] format for references."
  else if role = some "manager" then
    "You are a project manager reviewing Jira issues. Your goal is to track task ownership, delays, risks, overdue work, and workload distribution. "
      ++ "Summarize who is responsible, what\x27s at risk, and what requires follow-up. Use [KEY] format to cite issues."
  else if role = some "executive" then
    "You are preparing a briefing for senior leadership. Generate a high-level summary of Jira issues across projects, including project health, delivery risk, and resourcing trends. "
      ++ "Do not mention individuals unless critical. Focus on portfolio-level risk and progress signals. Cite issue [KEY]s if relevant."
  else if multiFormat then
    "You are a seasoned Jira expert and analyst tasked with generating comprehensive summaries for a cross-functional audience. "
      ++ "Your goal is to produce verbose, insightful narratives, not lists or field dumps.\n\n"
      ++ "Output must include **four sections**:\n"
      ++ "1. **Detailed Summary** – Paragraphs per issue using metadata fields. Give context, owners, status, risks.\n"
      ++ "2. **Technical Summary** – Developer-oriented overview. Focus on progress, blockers, and priorities.\n"
      ++ "3. **Management Summary** – High-level report for leadership. Include overall status, overdue/risk items, trends.\n"
      ++ "4. **Overall Project Summary** – An integrated narrative summarizing health and risk across all issues provided.\n\n"
      ++ "Use [KEY] when referencing issues."
  else
    "You are a senior Jira analyst producing detailed summaries. Always write in verbose paragraph style.\n"
      ++ "Start with an overall project-level overview (issue counts, open/closed status).\n"
      ++ "Then, for each issue, write a paragraph covering:\n"
      ++ "• Summary & description\n• Responsible parties (assignee, reporter)\n"
      ++ "• Lifecycle status (status, resolution, updated date)\n"
      ++ "• Labels, components, fix versions\n"
      ++ "• Urgency or blocking context\n"
      ++ "• Mention issue keys using [KEY] format\n"
      ++ "Conclude with executive-style insights or risk highlights."

/-! ## chat.py — the system prompt stack of `answer` (lines 80–171, C8) -/

/-- All parameters of `ChatService.answer` that exist before the retrieval
step (the knobs plus the non-knob inputs). -/
structure AnswerArgs where
  question : String := ""
  top_k : Nat := 5
  verbose : Bool := false
  multi_format : Bool := false
  role : Option String := none
  character : Option String := none
  intensity : Option String := none
  temperature : Option ℚ := none
  max_tokens : Option Nat := none
  language : Option String := none
  pirate : Option Bool := none
  patricize : Bool := false
  datasource : String := "jira"
deriving DecidableEq

/-- Datasource normalization (`answer` lines 81–83). -/
def normDatasource (datasource : String) : String :=
  let ds := pyLower (pyStrip (if datasource = "" then "jira" else datasource))
  if ds = "jira" || ds = "people" || ds = "signins" then ds else "jira"

/-- Legacy `pirate` shim (`answer` lines 86–91): when `character` is unset
and `pirate` given, map it to the pirate persona (the `log.debug` call there
has no effect on the result and is dropped). -/
def shimCharacter (character : Option String) (pirate : Option Bool) : Option String :=
  match character, pirate with
  | none, some b => if b then some "pirate" else none
  | c, _ => c

/-- Appends produced by an `if x:`-guarded block over an optional string. -/
def optLines (x : Option String) (f : String → List String) : List String :=
  match x with
  | none => []
  | some s => if s = "" then [] else f s

/-- Humor rule block (`answer` lines 160–165). -/
def humorRule : String :=
  "Humor rule (Patricize): After you finish your complete answer, append exactly one extra line:\n"
    ++ "PS (Dad joke): <one short, corny, G-rated one-liner>\n"
    ++ "The joke MUST be grounded in the content of the answer you just wrote — not the user\x27s question wording. "
    ++ "Keep it to one sentence. If multi-format is enabled, the joke comes after all sections."

/-- Embeds the `system_top_lines` assembly of `ChatService.answer` (chat.py
lines 80–99 and 137–171): datasource/persona/intensity normalization, then
the ordered block list — language directive, persona block + reinforcement,
format lock, humor rule (+ language note), base role/datasource prompt. -/
def systemTopLines (a : AnswerArgs) : List String :=
  let ds := normDatasource a.datasource
  let character := normalizePersona (shimCharacter a.character a.pirate)
  let lvl := effectiveIntensity character a.multi_format a.intensity
  let lang_line := languageDirective a.language
  let role_base := makeSystemPrompt a.multi_format a.role ds
  let format_lock := if a.multi_format then some (formatLockText a.language ds) else none
  let persona_block := if pyTruthy character then some (personaInstructions character (some lvl)) else none
  optLines lang_line (fun s => [s])
    ++ optLines persona_block (fun pb =>
        [pb ++ " Do not alter required section headings or their order when present.",
         "Always maintain this persona unless explicitly told otherwise. "
           ++ "Avoid corporate boilerplate phrasing; be concise and persona-consistent."])
    ++ optLines format_lock (fun fl => [fl])
    ++ (if a.patricize then
          [humorRule]
            ++ (if pyTruthy a.language then ["Apply the language/locale requirement to the dad joke as well."] else [])
        else [])
    ++ [role_base]

/-- Embeds `system_prompt = "\n\n".join(system_top_lines)` (line 171). -/
def systemPrompt (a : AnswerArgs) : String :=
  String.intercalate "\n\n" (systemTopLines a)

/-! ## Concrete sample data for witnesses -/

/-- A sample Jira-path hit. -/
def demoHit : Hit :=
  { key := some "PROJ-1", status := some "Open", summary := some "Crash on load",
    document := some "Stack trace attached." }

/-- An upstream Jira search call that raises on every invocation. -/
def downSearch : String → Except String (List JiraIssue) :=
  fun _ => Except.error "503 Service Unavailable"

/-- A sample live overlay. -/
def demoOverlay : Overlay :=
  { live_status := some "Done", live_assignee := some "Ann Lee",
    live_priority := some "High", live_updated := some "2025-09-30" }

/-- A live map holding an overlay for PROJ-1 only. -/
def demoLiveMap : LiveMap := insertLive emptyLiveMap (some "PROJ-1") demoOverlay

/-- A completion request against a gated model. -/
def demoReq : GenRequest :=
  { model := "o3-pro", messagesDigest := "msgs", temperature := 0.35, max_tokens := 4096 }

/-- A completion backend that rejects only the gated model, with a
permission error naming the model. -/
def demoCreate : GenRequest → Except OpenAIErr String := fun r =>
  if r.model = "o3-pro" then
    Except.error (.permissionDenied "Project does not have access to model o3-pro")
  else Except.ok "All good."

/-! # Theorems -/

/-! ## Dedup helper lemmas -/

/-- The dedup loop only ever appends hits of its input, in input order. -/
theorem dedupAux_sublist (ds : String) (l : List Hit) (seen : List String) :
    List.Sublist (dedupAux ds l seen) l := by
  induction l generalizing seen with
  | nil => simp [dedupAux]
  | cons h t ih =>
    simp only [dedupAux]
    cases hk : dedupeKey ds h with
    | none => exact (ih seen).cons₂ h
    | some k =>
      by_cases hks : k ∈ seen
      · simp only [if_pos hks]
        exact (ih seen).cons h
      · simp only [if_neg hks]
        exact (ih (k :: seen)).cons₂ h

/-- Keys of hits surviving the loop never lie in the starting `seen` set. -/
theorem dedupAux_key_not_seen (ds : String) (l : List Hit) (seen : List String) :
    ∀ h ∈ dedupAux ds l seen, ∀ k, dedupeKey ds h = some k → k ∉ seen := by
  induction l generalizing seen with
  | nil => simp [dedupAux]
  | cons h t ih =>
    simp only [dedupAux]
    cases hk : dedupeKey ds h with
    | none =>
      intro x hx k hxk
      rcases List.mem_cons.mp hx with rfl | hx'
      · rw [hk] at hxk; cases hxk
      · exact ih seen x hx' k hxk
    | some k0 =>
      by_cases hks : k0 ∈ seen
      · simp only [if_pos hks]
        exact ih seen
      · simp only [if_neg hks]
        intro x hx k hxk
        rcases List.mem_cons.mp hx with rfl | hx'
        · rw [hk] at hxk
          injection hxk with e
          subst e
          exact hks

        · intro hkseen
          exact (ih (k0 :: seen) x hx' k hxk) (List.mem_cons_of_mem _ hkseen)

/-- No two survivors of the dedup loop carry the same key. -/
theorem dedupAux_pairwise (ds : String) (l : List Hit) (seen : List String) :
    (dedupAux ds l seen).Pairwise
      (fun a b => ∀ k, dedupeKey ds a = some k → dedupeKey ds b ≠ some k) := by
  induction l generalizing seen with
  | nil => simp [dedupAux]
  | cons h t ih =>
    simp only [dedupAux]
    cases hk : dedupeKey ds h with
    | none =>
      refine List.Pairwise.cons ?_ (ih seen)
      intro b _ k hak
      rw [hk] at hak
      cases hak
    | some k0 =>
      by_cases hks : k0 ∈ seen
      · simp only [if_pos hks]
        exact ih seen
      · simp only [if_neg hks]
        refine List.Pairwise.cons ?_ (ih (k0 :: seen))
        intro b hb k hak hbk
        rw [hk] at hak
        injection hak with e
        subst e
        exact (dedupAux_key_not_seen ds t (k0 :: seen) b hb k0 hbk) (List.mem_cons_self _ _)

/-- For any key not yet seen, the first surviving hit with that key is the
first input hit with that key. -/
theorem dedupAux_find (ds : String) (l : List Hit) (seen : List String) (k : String)
    (hk : k ∉ seen) :
    (dedupAux ds l seen).find? (fun h => dedupeKey ds h == some k) =
      l.find? (fun h => dedupeKey ds h == some k) := by
  induction l generalizing seen with
  | nil => simp [dedupAux]
  | cons h t ih =>
    simp only [dedupAux]
    cases hke : dedupeKey ds h with
    | none =>
      rw [List.find?_cons_of_neg _ (by simp [hke]), List.find?_cons_of_neg _ (by simp [hke])]
      exact ih seen hk
    | some k0 =>
      by_cases hks : k0 ∈ seen
      · simp only [if_pos hks]
        have hne : k0 ≠ k := fun e => hk (e ▸ hks)
        rw [List.find?_cons_of_neg _ (by simp [hke, hne])]
        exact ih seen hk
      · simp only [if_neg hks]
        by_cases hkk : k0 = k
        · subst hkk
          rw [List.find?_cons_of_pos _ (by simp [hke]), List.find?_cons_of_pos _ (by simp [hke])]
        · rw [List.find?_cons_of_neg _ (by simp [hke, hkk]), List.find?_cons_of_neg _ (by simp [hke, hkk])]
          refine ih (k0 :: seen) ?_
          intro hmem
          rcases List.mem_cons.mp hmem with e | hs
          · exact hkk e.symm
          · exact hk hs

/-- The loop passes keyless hits through untouched. -/
theorem dedupAux_filter_keyless (ds : String) (l : List Hit) (seen : List String) :
    (dedupAux ds l seen).filter (fun h => (dedupeKey ds h).isNone) =
      l.filter (fun h => (dedupeKey ds h).isNone) := by
  induction l generalizing seen with
  | nil => simp [dedupAux]
  | cons h t ih =>
    simp only [dedupAux]
    cases hke : dedupeKey ds h with
    | none =>
      simp only [List.filter_cons, hke, Option.isNone_none, if_pos]
      rw [ih seen]
    | some k0 =>
      by_cases hks : k0 ∈ seen
      · simp only [if_pos hks, List.filter_cons, hke, Option.isNone_some]
        rw [ih seen]
        simp
      · simp only [if_neg hks, List.filter_cons, hke, Option.isNone_some]
        rw [ih (k0 :: seen)]

/-! ## Claim C2 -/

/-- C2: for every hit list (and every datasource's kind-specific identity
key), the dedup step of `answer` returns a sublist of its input (so
first-seen order is preserved and dropping never errors), no two output
hits share an identity key, and for every key the first output hit carrying
it is exactly the first input hit carrying it (first occurrence wins). -/
theorem dedup_first_seen_no_duplicates (ds : String) (hits : List Hit) :
    List.Sublist (dedup ds hits) hits ∧
    (dedup ds hits).Pairwise
      (fun a b => ∀ k, dedupeKey ds a = some k → dedupeKey ds b ≠ some k) ∧
    ∀ k : String, (dedup ds hits).find? (fun h => dedupeKey ds h == some k) =
      hits.find? (fun h => dedupeKey ds h == some k) :=
  ⟨dedupAux_sublist ds hits [], dedupAux_pairwise ds hits [],
   fun k => dedupAux_find ds hits [] k (by simp)⟩

/-! ## Claim C10 -/

/-- C10: hits whose kind-specific identity key is absent or empty are always
kept by the dedup step — the keyless sub-sequence of the output equals the
keyless sub-sequence of the input, with order and multiplicity preserved,
so keyless hits are never dropped as duplicates of one another. -/
theorem keyless_hits_always_kept (ds : String) (hits : List Hit) :
    (dedup ds hits).filter (fun h => (dedupeKey ds h).isNone) =
      hits.filter (fun h => (dedupeKey ds h).isNone) :=
  dedupAux_filter_keyless ds hits []

/-! ## Enrichment helper lemmas -/

/-- Folding a function that never moves the accumulator is the identity. -/
theorem foldl_fixed {α β : Type} (f : β → α → β) (l : List α) (init : β)
    (hf : ∀ b a, f b a = b) : l.foldl f init = init := by
  induction l generalizing init with
  | nil => rfl
  | cons a t ih => rw [List.foldl_cons, hf, ih]

/-- When every upstream search call raises, the live map stays empty. -/
theorem fetchLiveFields_of_failure (search : String → Except String (List JiraIssue))
    (hfail : ∀ jql, ∃ e, search jql = Except.error e) (keys : List String) :
    fetchLiveFields search keys = emptyLiveMap := by
  unfold fetchLiveFields
  by_cases hk : (keys.filter (fun k => k ≠ "")).isEmpty = true
  · simp only [hk, if_true]
  · simp only [hk, if_false]
    apply foldl_fixed
    intro acc batch
    obtain ⟨e, he⟩ := hfail (buildJql batch)
    simp [he]

/-- Merging with the empty live map changes nothing. -/
theorem mergeOne_empty (h : Hit) : mergeOne emptyLiveMap h = h := by
  unfold mergeOne
  cases hitKey h <;> simp [emptyLiveMap]

/-! ## Claim C3 -/

/-- C3: for every question (represented by the keys extracted from it),
every hit list, and every upstream behaviour that raises on each
invocation, the enrichment path of `HybridRetriever.retrieve` returns the
base hits unchanged: the failure is swallowed inside `_fetch_live_fields`
(total by construction, so nothing propagates) and the merge step finds no
overlay for any key. -/
theorem enrichment_never_raises (search : String → Except String (List JiraIssue))
    (hfail : ∀ jql, ∃ e, search jql = Except.error e)
    (queryKeys : List String) (baseHits : List Hit) :
    hybridRetrieveJira search queryKeys baseHits = baseHits := by
  show baseHits.map
      (mergeOne (fetchLiveFields search (queryKeys ++ baseHits.filterMap hitKey))) = baseHits
  rw [fetchLiveFields_of_failure search hfail]
  rw [funext mergeOne_empty]
  simp

/-- Witness for C3: a concrete always-failing upstream leaves a concrete
hit list untouched. -/
theorem enrichment_never_raises_witness :
    (∀ jql, ∃ e, downSearch jql = Except.error e) ∧
    hybridRetrieveJira downSearch ["PROJ-9"] [demoHit] = [demoHit] :=
  ⟨fun _ => ⟨"503 Service Unavailable", rfl⟩,
   enrichment_never_raises downSearch (fun _ => ⟨"503 Service Unavailable", rfl⟩)
     ["PROJ-9"] [demoHit]⟩

/-! ## Claim C9 -/

/-- C9: in the enrichment merge step, a hit whose identity key has an
overlay gets exactly the four `live_*` fields overwritten — the merged hit
is the record update of the original, every base field is unchanged and
none is deleted — and a hit whose key has no overlay (or no key at all) is
returned unchanged. -/
theorem enrichment_merge_frame (liveMap : LiveMap) (h : Hit) :
    (∀ k live, hitKey h = some k → liveMap (some k) = some live →
      mergeOne liveMap h =
        { h with live_status := live.live_status, live_assignee := live.live_assignee,
                 live_priority := live.live_priority, live_updated := live.live_updated } ∧
      (mergeOne liveMap h).key = h.key ∧
      (mergeOne liveMap h).issue_key = h.issue_key ∧
      (mergeOne liveMap h).status = h.status ∧
      (mergeOne liveMap h).assignee = h.assignee ∧
      (mergeOne liveMap h).reporter = h.reporter ∧
      (mergeOne liveMap h).priority = h.priority ∧
      (mergeOne liveMap h).resolution = h.resolution ∧
      (mergeOne liveMap h).created = h.created ∧
      (mergeOne liveMap h).updated = h.updated ∧
      (mergeOne liveMap h).summary = h.summary ∧
      (mergeOne liveMap h).document = h.document ∧
      (mergeOne liveMap h).userPrincipalName = h.userPrincipalName ∧
      (mergeOne liveMap h).mail = h.mail ∧
      (mergeOne liveMap h).displayName = h.displayName ∧
      (mergeOne liveMap h).id = h.id ∧
      (mergeOne liveMap h).createdDateTime = h.createdDateTime ∧
      (mergeOne liveMap h).appDisplayName = h.appDisplayName ∧
      (mergeOne liveMap h).live_status = live.live_status ∧
      (mergeOne liveMap h).live_assignee = live.live_assignee ∧
      (mergeOne liveMap h).live_priority = live.live_priority ∧
      (mergeOne liveMap h).live_updated = live.live_updated) ∧
    (∀ k, hitKey h = some k → liveMap (some k) = none → mergeOne liveMap h = h) ∧
    (hitKey h = none → mergeOne liveMap h = h) := by
  refine ⟨?_, ?_, ?_⟩
  · intro k live hk hl
    simp only [mergeOne, hk, hl]
    simp
  · intro k hk hl
    simp only [mergeOne, hk, hl]
  · intro hk
    simp only [mergeOne, hk]

/-- Witness for C9: a concrete overlay for PROJ-1 overwrites exactly the
live fields of a concrete hit. -/
theorem enrichment_merge_frame_witness :
    hitKey demoHit = some "PROJ-1" ∧
    demoLiveMap (some "PROJ-1") = some demoOverlay ∧
    mergeOne demoLiveMap demoHit =
      { demoHit with live_status := some "Done", live_assignee := some "Ann Lee",
                     live_priority := some "High", live_updated := some "2025-09-30" } :=
  ⟨by decide, by decide,
   ((enrichment_merge_frame demoLiveMap demoHit).1 "PROJ-1" demoOverlay
     (by decide) (by decide)).1⟩

/-! ## Claim C1 -/

/-- C1: contrary to the claimed merged/sorted/truncated result, every
multi-index retrieval that reaches the per-index loop of
`MultiSourceRetriever.retrieve` raises: the loop's first statement unpacks
the flat hit list returned by `FaissIndexer.search` into `D, I` (a
`ValueError` unless the index returned exactly two hits, and an
`AttributeError` on `D.tolist()` otherwise).  In particular a five-hit
search (`top_k = 5` with five stored vectors) fails at the unpacking. -/
theorem multisource_retrieve_raises :
    (∀ (fi : FaissIndexer) (raw : List (ℚ × Int)), ∃ e, msRetrieveStep fi raw = Except.error e) ∧
    (faissSearch demoFaiss demoRaw).length = 5 ∧
    msRetrieveStep demoFaiss demoRaw =
      Except.error "ValueError: cannot unpack search() result into D, I" := by
  refine ⟨?_, rfl, rfl⟩
  intro fi raw
  unfold msRetrieveStep
  cases unpackDI (faissSearch fi raw) with
  | error e => exact ⟨e, rfl⟩
  | ok p => exact ⟨"AttributeError: dict object has no attribute tolist", rfl⟩

/-! ## Claim C4 -/

/-- C4 counterexample: with an active persona and a requested temperature
of 0.1, the effective temperature is 0.1 < 0.2 — the code clamps with
`min(base_temp, 0.35)` and never enforces the claimed 0.2 floor. -/
theorem temperature_floor_violated :
    effectiveTemperature (some 0.1) (some "pirate") < 0.2 := by
  show min (0.1 : ℚ) 0.35 < 0.2
  rw [min_eq_left (by norm_num : (0.1 : ℚ) ≤ 0.35)]
  norm_num

/-- C4 (amended): whenever a persona is active, the effective temperature
is `min(requested, 0.35)` — at most 0.35, never above the requested value,
and at least 0.2 provided the requested value is at least 0.2 (the code
imposes no absolute 0.2 floor). -/
theorem temperature_clamp_amended (t : ℚ) (p : String) :
    effectiveTemperature (some t) (some p) ≤ 0.35 ∧
    effectiveTemperature (some t) (some p) ≤ t ∧
    (0.2 ≤ t → 0.2 ≤ effectiveTemperature (some t) (some p)) := by
  refine ⟨?_, ?_, ?_⟩
  · show min t 0.35 ≤ 0.35
    exact min_le_right _ _
  · show min t 0.35 ≤ t
    exact min_le_left _ _
  · intro ht
    show (0.2 : ℚ) ≤ min t 0.35
    exact le_min ht (by norm_num)

/-- Witness for the amended C4 at a concrete requested value of 0.3. -/
theorem temperature_clamp_amended_witness :
    (0.2 : ℚ) ≤ 0.3 ∧ (0.2 : ℚ) ≤ effectiveTemperature (some 0.3) (some "pirate") :=
  ⟨by norm_num, (temperature_clamp_amended 0.3 "pirate").2.2 (by norm_num)⟩

/-! ## Claim C5 -/

/-- C5: a permission-class rejection naming the model triggers exactly one
retry against the fallback model `"gpt-4-turbo"` with token ceiling
`min(max_tokens, 2048)`, whose outcome (success or failure) is returned
as-is; a permission error not naming the model, any other error class, and
success all issue no second request. -/
theorem model_fallback_once (create : GenRequest → Except OpenAIErr String) (req : GenRequest) :
    (∀ msg, create req = Except.error (.permissionDenied msg) → pyInStr "model" msg = true →
      createWithFallback create req =
        (create { req with model := "gpt-4-turbo", max_tokens := min req.max_tokens 2048 },
         [req, { req with model := "gpt-4-turbo", max_tokens := min req.max_tokens 2048 }])) ∧
    (∀ msg, create req = Except.error (.permissionDenied msg) → pyInStr "model" msg = false →
      createWithFallback create req = (Except.error (.permissionDenied msg), [req])) ∧
    (∀ msg, create req = Except.error (.apiError msg) →
      createWithFallback create req = (Except.error (.apiError msg), [req])) ∧
    (∀ r, create req = Except.ok r → createWithFallback create req = (Except.ok r, [req])) := by
  refine ⟨?_, ?_, ?_, ?_⟩
  · intro msg hc hm
    unfold createWithFallback
    rw [hc]
    simp [hm]
  · intro msg hc hm
    unfold createWithFallback
    rw [hc]
    simp [hm]
  · intro msg hc
    unfold createWithFallback
    rw [hc]
  · intro r hc
    unfold createWithFallback
    rw [hc]

/-- Witness for C5: the concrete gated backend is retried exactly once on
the fallback model with the halved ceiling and succeeds there. -/
theorem model_fallback_once_witness :
    demoCreate demoReq =
      Except.error (.permissionDenied "Project does not have access to model o3-pro") ∧
    pyInStr "model" "Project does not have access to model o3-pro" = true ∧
    createWithFallback demoCreate demoReq =
      (Except.ok "All good.",
       [demoReq, { demoReq with model := "gpt-4-turbo", max_tokens := 2048 }]) := by
  refine ⟨rfl, by decide, ?_⟩
  have h := (model_fallback_once demoCreate demoReq).1
    "Project does not have access to model o3-pro" rfl (by decide)
  rw [h]
  rfl

/-! ## Claim C6 -/

/-- C6: persona normalization lowercases and strips whitespace; the null
tokens ("", "none", "default", "off", "no") — in any case, with any
surrounding whitespace — normalize to no persona, and every other token is
kept in its normalized form (shown both as the general characterization and
on concrete case/whitespace variants). -/
theorem persona_normalization_characterized :
    normalizePersona none = none ∧
    (∀ c : String, normalizePersona (some c) =
      if pyLower (pyStrip c) ∈ nullPersonaTokens then none
      else some (pyLower (pyStrip c))) ∧
    normalizePersona (some " NoNe ") = none ∧
    normalizePersona (some "DEFAULT") = none ∧
    normalizePersona (some "\t off \n") = none ∧
    normalizePersona (some "No") = none ∧
    normalizePersona (some "   ") = none ∧
    normalizePersona (some " PiRate ") = some "pirate" ∧
    normalizePersona (some "Executive-Snark") = some "executive-snark" :=
  ⟨rfl, fun _ => rfl, by decide, by decide, by decide, by decide, by decide, by decide, by decide⟩

/-! ## Claim C7 -/

/-- C7: the Yoda persona with multi-section output escalates the default
("medium", whether explicit or omitted) intensity to "heavy"; with
intensity already "heavy" the escalation is a no-op and the per-paragraph
quota is 3.  Without multi-format, or for another persona, "medium" is
kept. -/
theorem yoda_escalation_quota :
    effectiveIntensity (some "yoda") true (some "medium") = "heavy" ∧
    effectiveIntensity (some "yoda") true none = "heavy" ∧
    effectiveIntensity (some "yoda") true (some "heavy") = "heavy" ∧
    effectiveIntensity (some "yoda") false (some "medium") = "medium" ∧
    effectiveIntensity (some "pirate") true (some "medium") = "medium" ∧
    quotaOf (effectiveIntensity (some "yoda") true (some "heavy")) = 3 := by
  decide

/-! ## Claim C8 -/

/-- C8: the compiled instruction stack (`system_top_lines`) is a pure
function of the policy knobs — persona (including its legacy `pirate`
alias), intensity, language, role, datasource, format-lock flag and humor
flag: two calls whose knobs agree produce identical instruction sequences
regardless of the question, top-k, verbosity, temperature and token-budget
inputs (the embedding is a total function, so there is no I/O or
randomness to depend on). -/
theorem policy_compiler_pure (q1 q2 : String) (k1 k2 : Nat) (v1 v2 : Bool)
    (t1 t2 : Option ℚ) (m1 m2 : Option Nat) (mf : Bool)
    (role ch intens lang : Option String) (pir : Option Bool) (pat : Bool) (ds : String) :
    systemTopLines ⟨q1, k1, v1, mf, role, ch, intens, t1, m1, lang, pir, pat, ds⟩ =
      systemTopLines ⟨q2, k2, v2, mf, role, ch, intens, t2, m2, lang, pir, pat, ds⟩ := rfl

end Jirugular
